import Mathlib

/-
Verification development for the NeuraVis neural-network buffer/dispatch core.

The embedding models:
  - NeuralBuffers (src/nn_buffers.cpp/.h): the layout planner and buffer store.
    All counters (m_totalWeights, m_totalBiases, m_totalNeurons) and the
    offset fields of LayerInfo are uint32_t in the source, so every
    accumulation here is taken modulo 2^32.
  - NeuralCompute (src/nn_compute.cpp/.h): the stage dispatcher.  GL calls
    issued by forwardLayer are recorded as an explicit DeviceCmd trace.
  - The forward-pass compute shader (shaders/forward.comp) is not among the
    sources; its behaviour is modelled from the spec's kernel contract.

Buffer elements are floats in the source; they are modelled as rationals
(every concrete value appearing in the program and the claims is exactly
representable).
-/

/-- 2^32, the modulus of the uint32_t arithmetic used throughout the planner. -/
def U32 : Nat := 2 ^ 32

/-- NeuralBuffers::LayerInfo (nn_buffers.h).  The `_padding[1]` field is always
zero and carries no information, so it is omitted. -/
structure LayerInfo where
  inputSize : Nat
  outputSize : Nat
  weightOffset : Nat
  biasOffset : Nat
  activationType : Nat
  inputOffset : Nat
  outputOffset : Nat
  deriving DecidableEq

instance : Inhabited LayerInfo := ⟨⟨0, 0, 0, 0, 0, 0, 0⟩⟩

/-- The error conditions the two classes report (via cerr + early return in the
source; the spec's taxonomy names them ConfigurationError, SizeMismatchError,
IndexOutOfRangeError; notInitialized is the dispatcher's "not initialized"
guard). -/
inductive NNError where
  | configurationError
  | sizeMismatchError
  | indexOutOfRangeError
  | notInitialized
  deriving DecidableEq

/-- Device work issued by NeuralCompute::forwardLayer, in program order. -/
inductive DeviceCmd where
  | useProgram
  | bindBuffers (w b a : Nat)
  | bindLayerInfoUBO
  | setLayerUniform (idx : Nat)
  | dispatch (workGroups : Nat)
  | barrier
  deriving DecidableEq

/-- The state of a NeuralBuffers object: the host-side fields plus the
contents of the three SSBOs.  `buffersCreated` records whether createBuffers
has run (nonzero GL handles). -/
structure Store where
  topology : List Nat
  layerInfo : List LayerInfo
  totalWeights : Nat
  totalBiases : Nat
  totalNeurons : Nat
  weights : List Rat
  biases : List Rat
  activations : List Rat
  buffersCreated : Bool
  deriving DecidableEq

/-- A default-constructed NeuralBuffers: empty vectors, zero counters, no
GL buffers. -/
def defaultStore : Store :=
  { topology := [], layerInfo := [], totalWeights := 0, totalBiases := 0,
    totalNeurons := 0, weights := [], biases := [], activations := [],
    buffersCreated := false }

/-- The adjacent layer pairs (m_topology[i], m_topology[i+1]) iterated by the
loop in NeuralBuffers::computeOffsets. -/
def layerPairs (topo : List Nat) : List (Nat × Nat) := topo.zip topo.tail

/-- The loop body of NeuralBuffers::computeOffsets (nn_buffers.cpp:44-83),
threading the loop state (activationOffset, m_totalWeights, m_totalBiases).
All four accumulators are uint32_t in the source, hence the mod 2^32.
Returns the built m_layerInfo together with the final totals. -/
def offsetsGo : List (Nat × Nat) → Nat → Nat → Nat → List LayerInfo × Nat × Nat
  | [], _, w, b => ([], w, b)
  | (inS, outS) :: rest, a, w, b =>
    let info : LayerInfo :=
      { inputSize := inS, outputSize := outS, weightOffset := w, biasOffset := b,
        activationType := 0, inputOffset := a, outputOffset := (a + inS) % U32 }
    let r := offsetsGo rest ((a + inS) % U32) ((w + inS * outS) % U32) ((b + outS) % U32)
    (info :: r.1, r.2)

/-- NeuralBuffers::computeOffsets: layer descriptors and the two totals.
For an empty topology the C++ loop bound `m_topology.size() - 1` underflows
(size_t) and the loop reads out of bounds; the model is only claimed faithful
for non-empty topologies. -/
def computeOffsetsResult (topo : List Nat) : List LayerInfo × Nat × Nat :=
  offsetsGo (layerPairs topo) 0 0 0

/-- The m_layerInfo vector computed for a topology (activation types still 0). -/
def layerInfosOf (topo : List Nat) : List LayerInfo := (computeOffsetsResult topo).1

/-- m_totalWeights after computeOffsets. -/
def totalWeightsOf (topo : List Nat) : Nat := (computeOffsetsResult topo).2.1

/-- m_totalBiases after computeOffsets. -/
def totalBiasesOf (topo : List Nat) : Nat := (computeOffsetsResult topo).2.2

/-- m_totalNeurons: std::accumulate(layerSizes.begin(), layerSizes.end(), 0u),
accumulating in 32-bit unsigned arithmetic. -/
def totalNeuronsOf (topo : List Nat) : Nat :=
  topo.foldl (fun a x => (a + x) % U32) 0

/-- The loop in NeuralBuffers::initialize that stores the activation types
into the already-built m_layerInfo (nn_buffers.cpp:31-33). -/
def setActTypes (infos : List LayerInfo) (acts : List Nat) : List LayerInfo :=
  List.zipWith (fun info a => { info with activationType := a }) infos acts

/-- NeuralBuffers::initialize (nn_buffers.cpp:9-42).  Order of events in the
source: cleanup() releases the previous buffers; m_topology, m_totalNeurons,
m_layerInfo and the totals are all assigned; only then is the activation
arity checked, and on mismatch the method returns with the buffers released
but every other field already overwritten.  On success createBuffers
allocates the three SSBOs with unspecified contents (glBufferData with a
null pointer); the model fills them with zeros as a placeholder, and no
theorem relies on that choice.  The arity check `activations.size() !=
layerSizes.size() - 1` is size_t arithmetic, which for an empty layerSizes
compares against SIZE_MAX and always fails; `acts.length + 1 ≠
layerSizes.length` has exactly that behaviour over Nat. -/
def initStore (_s : Store) (layerSizes : List Nat) (acts : List Nat) :
    Store × Option NNError :=
  let infos := layerInfosOf layerSizes
  let tW := totalWeightsOf layerSizes
  let tB := totalBiasesOf layerSizes
  let tN := totalNeuronsOf layerSizes
  if acts.length + 1 ≠ layerSizes.length then
    ({ topology := layerSizes, layerInfo := infos, totalWeights := tW,
       totalBiases := tB, totalNeurons := tN, weights := [], biases := [],
       activations := [], buffersCreated := false },
     some NNError.configurationError)
  else
    ({ topology := layerSizes, layerInfo := setActTypes infos acts,
       totalWeights := tW, totalBiases := tB, totalNeurons := tN,
       weights := List.replicate tW 0, biases := List.replicate tB 0,
       activations := List.replicate tN 0, buffersCreated := true },
     none)

/-- NeuralBuffers::uploadWeights (nn_buffers.cpp:113-125): exact-length check
against m_totalWeights, then glBufferSubData overwrites the whole buffer. -/
def uploadWeights (s : Store) (w : List Rat) : Store × Option NNError :=
  if w.length ≠ s.totalWeights then (s, some NNError.sizeMismatchError)
  else ({ s with weights := w }, none)

/-- NeuralBuffers::uploadBiases (nn_buffers.cpp:127-139). -/
def uploadBiases (s : Store) (b : List Rat) : Store × Option NNError :=
  if b.length ≠ s.totalBiases then (s, some NNError.sizeMismatchError)
  else ({ s with biases := b }, none)

/-- NeuralBuffers::setInputs (nn_buffers.cpp:141-154).  The length check reads
m_topology[0] before anything else; on an empty topology that access is out
of bounds (undefined behaviour), modelled as `none`.  On success
glBufferSubData writes inputs.size() floats at offset 0 of the activation
buffer. -/
def setInputs (s : Store) (inputs : List Rat) : Option (Store × Option NNError) :=
  match s.topology.head? with
  | none => none
  | some t0 =>
    if inputs.length ≠ t0 then some (s, some NNError.sizeMismatchError)
    else some ({ s with activations := inputs ++ s.activations.drop inputs.length }, none)

/-- NeuralBuffers::clearActivations (nn_buffers.cpp:156-165): overwrites the
whole activation buffer with zeros. -/
def clearActivations (s : Store) : Store :=
  { s with activations := List.replicate s.totalNeurons 0 }

/-- NeuralBuffers::uploadActivations (nn_buffers.cpp:167-179). -/
def uploadActivations (s : Store) (a : List Rat) : Store × Option NNError :=
  if a.length ≠ s.totalNeurons then (s, some NNError.sizeMismatchError)
  else ({ s with activations := a }, none)

/-- NeuralBuffers::readOutputs (nn_buffers.cpp:181-194): reads the trailing
m_topology.back() elements at offset m_totalNeurons - outputSize (uint32_t
subtraction).  m_topology.back() on an empty topology is undefined behaviour,
modelled as `none`. -/
def readOutputs (s : Store) : Option (List Rat) :=
  match s.topology.getLast? with
  | none => none
  | some outputSize =>
    some (((s.activations.drop ((s.totalNeurons + U32 - outputSize) % U32)).take outputSize))

/-- NeuralBuffers::readAllActivations (nn_buffers.cpp:196-204): reads
m_totalNeurons floats from offset 0. -/
def readAllActivations (s : Store) : List Rat := s.activations.take s.totalNeurons

/-- NeuralBuffers::readWeights (nn_buffers.cpp:206-214). -/
def readWeights (s : Store) : List Rat := s.weights.take s.totalWeights

/-- Modelled from the spec: no bias read-back exists in the sources
(nn_buffers.h exposes readOutputs/readAllActivations/readWeights only), but
the spec's round-trip property in section 8 reads biases back after
uploadBiases; modelled as the full-buffer read analogous to readWeights. -/
def readBiases (s : Store) : List Rat := s.biases.take s.totalBiases

/-- The dispatcher state a NeuralCompute object holds: whether m_buffers is
non-null and whether m_computeProgram is a nonzero (compiled) handle.  The
bound store itself is passed explicitly to each operation. -/
structure Compute where
  bound : Bool
  programLoaded : Bool
  deriving DecidableEq

/-- NeuralCompute::getLayerCount (nn_compute.cpp:84-87). -/
def getLayerCount (c : Compute) (s : Store) : Nat :=
  if c.bound then s.layerInfo.length else 0

/-- Modelled from the spec: the forward-pass compute shader
(shaders/forward.comp) is not among the sources.  Sections 3 and 4.2 fix its
contract: one output neuron o computes the weighted sum over inputSize inputs
with the row-major weight at weightOffset + o*inputSize + i, adds the bias at
biasOffset + o, and applies the selected activation function. -/
def neuronOut (act : Nat → Rat → Rat) (info : LayerInfo)
    (weights biases acts : List Rat) (o : Nat) : Rat :=
  act info.activationType
    (((List.range info.inputSize).foldl
        (fun sum i =>
          sum + weights.getD (info.weightOffset + o * info.inputSize + i) 0 *
            acts.getD (info.inputOffset + i) 0) 0)
      + biases.getD (info.biasOffset + o) 0)

/-- Modelled from the spec: the kernel writes each computed neuron into the
activation buffer's output slice for the layer and touches nothing else. -/
def runKernel (act : Nat → Rat → Rat) (info : LayerInfo)
    (weights biases acts : List Rat) : List Rat :=
  (List.range acts.length).map fun j =>
    if info.outputOffset ≤ j ∧ j < info.outputOffset + info.outputSize then
      neuronOut act info weights biases acts (j - info.outputOffset)
    else acts.getD j 0

/-- Modelled from the spec: activation kind 0 is ReLU (nn_buffers.h documents
0=ReLU, 1=Sigmoid, 2=Tanh; the XOR demo uses kind 0 only, and sigmoid/tanh
are left as the identity here since no claim exercises them). -/
def demoActivation : Nat → Rat → Rat := fun k x => if k = 0 then max x 0 else x

/-- NeuralCompute::forwardLayer (nn_compute.cpp:46-82): initialization guard,
bounds check against m_buffers->getLayerInfo().size(), then the GL sequence
useProgram / bindBuffers(0,1,2) / bind UBO / set u_layerIndex / dispatch of
ceil(outputSize/256) work groups / memory barrier.  The store's activation
buffer is updated per the kernel contract. -/
def forwardLayer (act : Nat → Rat → Rat) (c : Compute) (s : Store)
    (layerIndex : Nat) : Store × Option NNError × List DeviceCmd :=
  if c.bound = false ∨ c.programLoaded = false then
    (s, some NNError.notInitialized, [])
  else if s.layerInfo.length ≤ layerIndex then
    (s, some NNError.indexOutOfRangeError, [])
  else
    let info := s.layerInfo.getD layerIndex default
    let workGroups := (info.outputSize + 256 - 1) / 256
    ({ s with activations := runKernel act info s.weights s.biases s.activations },
     none,
     [DeviceCmd.useProgram, DeviceCmd.bindBuffers 0 1 2, DeviceCmd.bindLayerInfoUBO,
      DeviceCmd.setLayerUniform layerIndex, DeviceCmd.dispatch workGroups,
      DeviceCmd.barrier])

/-- NeuralCompute::forward (nn_compute.cpp:32-44): initialization guard, then
forwardLayer(i) for i = 0 .. layerInfo.size()-1. -/
def forward (act : Nat → Rat → Rat) (c : Compute) (s : Store) :
    Store × Option NNError × List DeviceCmd :=
  if c.bound = false ∨ c.programLoaded = false then
    (s, some NNError.notInitialized, [])
  else
    let r := (List.range s.layerInfo.length).foldl
      (fun (p : Store × List DeviceCmd) i =>
        let q := forwardLayer act c p.1 i
        (q.1, p.2 ++ q.2.2)) (s, [])
    (r.1, none, r.2)

/-- The spec side of C5, following section 4.2's words: "Equivalent to calling
forwardLayer(i) for i = 0..layerCount−1 in order" — the caller issues the
single-layer calls one by one, threading the store and collecting the device
work of each call. -/
def forwardLayerCalls (act : Nat → Rat → Rat) (c : Compute) (s : Store)
    (idxs : List Nat) : Store × List DeviceCmd :=
  idxs.foldl
    (fun (p : Store × List DeviceCmd) i =>
      let q := forwardLayer act c p.1 i
      (q.1, p.2 ++ q.2.2)) (s, [])

/-- A dispatcher whose initialize succeeded: store bound, program compiled. -/
def compInit : Compute := { bound := true, programLoaded := true }

/-- The store set up by main.cpp for the XOR demo (main.cpp:104-131):
topology {2,2,1}, ReLU everywhere, hand-crafted weights and biases. -/
def xorStore : Store :=
  (uploadBiases
    (uploadWeights (initStore defaultStore [2, 2, 1] [0, 0]).1
      [1, 1, 1, 1, 1, -2]).1
    [0, -(3 / 2), 0]).1

/-- One XOR evaluation as the application drives it: clear the activations,
set the inputs, run the full forward pass, read the outputs. -/
def runXor (x y : Rat) : Option (List Rat) :=
  match setInputs (clearActivations xorStore) [x, y] with
  | none => none
  | some r => readOutputs (forward demoActivation compInit r.1).1

/-- The modulus is positive. -/
lemma U32_pos : 0 < U32 := by norm_num [U32]

/-- The totals computed by the computeOffsets loop are the pairwise sums
reduced modulo 2^32, for any loop state whose totals are in range. -/
lemma offsetsGo_totals (ps : List (Nat × Nat)) :
    ∀ a w b, w < U32 → b < U32 →
      (offsetsGo ps a w b).2.1 = (w + (ps.map fun p => p.1 * p.2).sum) % U32 ∧
      (offsetsGo ps a w b).2.2 = (b + (ps.map fun p => p.2).sum) % U32 := by
  induction ps with
  | nil =>
    intro a w b hw hb
    simp [offsetsGo, Nat.mod_eq_of_lt hw, Nat.mod_eq_of_lt hb]
  | cons p rest ih =>
    intro a w b hw hb
    obtain ⟨p1, p2⟩ := p
    have h := ih ((a + p1) % U32) ((w + p1 * p2) % U32) ((b + p2) % U32)
      (Nat.mod_lt _ U32_pos) (Nat.mod_lt _ U32_pos)
    simp only [offsetsGo, List.map_cons, List.sum_cons]
    constructor
    · rw [h.1, Nat.mod_add_mod, Nat.add_assoc]
    · rw [h.2, Nat.mod_add_mod, Nat.add_assoc]

/-- The accumulate loop computing m_totalNeurons sums modulo 2^32. -/
lemma foldl_mod_sum (l : List Nat) :
    ∀ a, a < U32 → l.foldl (fun x y => (x + y) % U32) a = (a + l.sum) % U32 := by
  induction l with
  | nil => intro a ha; simp [Nat.mod_eq_of_lt ha]
  | cons x xs ih =>
    intro a ha
    simp only [List.foldl_cons, List.sum_cons]
    rw [ih _ (Nat.mod_lt _ U32_pos), Nat.mod_add_mod, Nat.add_assoc]

/-- The layer-descriptor list has one entry per adjacent pair. -/
lemma offsetsGo_length (ps : List (Nat × Nat)) :
    ∀ a w b, (offsetsGo ps a w b).1.length = ps.length := by
  induction ps with
  | nil => intro a w b; rfl
  | cons p rest ih =>
    intro a w b
    obtain ⟨p1, p2⟩ := p
    simp only [offsetsGo, List.length_cons]
    rw [ih]

/-- Per-descriptor characterisation of the computeOffsets loop: sizes come
from the pair list, and the two activation offsets are the running prefix
sums reduced modulo 2^32. -/
lemma offsetsGo_getD (ps : List (Nat × Nat)) :
    ∀ i a w b, i < ps.length → a < U32 →
      ((offsetsGo ps a w b).1.getD i default).inputSize = (ps.getD i (0, 0)).1 ∧
      ((offsetsGo ps a w b).1.getD i default).outputSize = (ps.getD i (0, 0)).2 ∧
      ((offsetsGo ps a w b).1.getD i default).inputOffset =
        (a + (((ps.take i).map fun p => p.1).sum)) % U32 ∧
      ((offsetsGo ps a w b).1.getD i default).outputOffset =
        (a + (((ps.take i).map fun p => p.1).sum) + (ps.getD i (0, 0)).1) % U32 := by
  induction ps with
  | nil => intro i a w b hi; exact absurd hi (by simp)
  | cons p rest ih =>
    intro i a w b hi ha
    obtain ⟨p1, p2⟩ := p
    cases i with
    | zero =>
      simp [offsetsGo, Nat.mod_eq_of_lt ha]
    | succ i =>
      have hi' : i < rest.length := by simpa using hi
      have h := ih i ((a + p1) % U32) ((w + p1 * p2) % U32) ((b + p2) % U32) hi'
        (Nat.mod_lt _ U32_pos)
      simp only [offsetsGo, List.getD_cons_succ, List.take_succ_cons, List.map_cons,
        List.sum_cons]
      refine ⟨h.1, h.2.1, ?_, ?_⟩
      · rw [h.2.2.1, Nat.mod_add_mod, Nat.add_assoc]
      · rw [h.2.2.2, Nat.add_assoc ((a + p1) % U32), Nat.mod_add_mod]
        congr 1
        ring

/-- Each descriptor's input offset is the previous descriptor's output
offset: the loop state activationOffset used as inputOffset of descriptor
i+1 is exactly the value stored as outputOffset of descriptor i. -/
lemma offsetsGo_chain (ps : List (Nat × Nat)) :
    ∀ i a w b, i + 1 < ps.length →
      ((offsetsGo ps a w b).1.getD (i + 1) default).inputOffset =
        ((offsetsGo ps a w b).1.getD i default).outputOffset := by
  induction ps with
  | nil => intro i a w b hi; exact absurd hi (by simp)
  | cons p rest ih =>
    intro i a w b hi
    obtain ⟨p1, p2⟩ := p
    cases i with
    | zero =>
      cases rest with
      | nil => simp at hi
      | cons q rest' =>
        obtain ⟨q1, q2⟩ := q
        simp [offsetsGo]
    | succ i =>
      have hi' : i + 1 < rest.length := by simpa using hi
      simp only [offsetsGo, List.getD_cons_succ]
      exact ih i _ _ _ hi'

/-- layerPairs on a topology with at least two entries. -/
lemma layerPairs_cons_cons (a b : Nat) (l : List Nat) :
    layerPairs (a :: b :: l) = (a, b) :: layerPairs (b :: l) := rfl

/-- The first components of a prefix of the pair list are a prefix of the
topology itself. -/
lemma layerPairs_take_fst (topo : List Nat) :
    ∀ i, i < (layerPairs topo).length →
      (((layerPairs topo).take i).map fun p => p.1).sum = (topo.take i).sum := by
  induction topo with
  | nil => intro i hi; simp [layerPairs] at hi
  | cons t0 rest ih =>
    intro i hi
    cases rest with
    | nil => simp [layerPairs] at hi
    | cons t1 rest' =>
      cases i with
      | zero => simp
      | succ i =>
        rw [layerPairs_cons_cons] at hi ⊢
        simp only [List.take_succ_cons, List.map_cons, List.sum_cons]
        rw [ih i (by simpa using hi)]

/-- The pair list of a topology of n ≥ 1 layers has n - 1 entries. -/
lemma layerPairs_length (topo : List Nat) :
    (layerPairs topo).length + 1 = topo.length ∨ topo = [] := by
  cases topo with
  | nil => right; rfl
  | cons t rest =>
    left
    simp [layerPairs, List.length_zip]

/-- Copies a descriptor with its activation type cleared; initialize only ever
changes the activationType field of descriptors computed by computeOffsets. -/
def stripAct (l : LayerInfo) : LayerInfo := { l with activationType := 0 }

/-- The invariant of a store on which NeuralBuffers::initialize has succeeded
(possibly followed by uploads/reads, none of which disturb it): the counters
and descriptors are the ones computeOffsets derives from the stored topology,
and the three buffers have exactly the allocated sizes. -/
def WellFormed (s : Store) : Prop :=
  2 ≤ s.topology.length ∧
  s.layerInfo.map stripAct = layerInfosOf s.topology ∧
  s.totalWeights = totalWeightsOf s.topology ∧
  s.totalBiases = totalBiasesOf s.topology ∧
  s.totalNeurons = totalNeuronsOf s.topology ∧
  s.weights.length = s.totalWeights ∧
  s.biases.length = s.totalBiases ∧
  s.activations.length = s.totalNeurons

instance (s : Store) : Decidable (WellFormed s) := by
  unfold WellFormed; infer_instance

/-- getD through a map, at an in-range index. -/
lemma getD_map_stripAct (l : List LayerInfo) :
    ∀ i, i < l.length → (l.map stripAct).getD i default = stripAct (l.getD i default) := by
  induction l with
  | nil => intro i hi; simp at hi
  | cons x xs ih =>
    intro i hi
    cases i with
    | zero => rfl
    | succ i => simpa using ih i (by simpa using hi)

/-- stripAct leaves every field except activationType alone. -/
lemma stripAct_fields (l : LayerInfo) :
    (stripAct l).inputSize = l.inputSize ∧ (stripAct l).outputSize = l.outputSize ∧
    (stripAct l).weightOffset = l.weightOffset ∧ (stripAct l).biasOffset = l.biasOffset ∧
    (stripAct l).inputOffset = l.inputOffset ∧ (stripAct l).outputOffset = l.outputOffset :=
  ⟨rfl, rfl, rfl, rfl, rfl, rfl⟩

/-- The totals any initialize call stores (error or not) are the ones
computeOffsets derives from the new topology. -/
lemma initStore_totals (s : Store) (topo acts : List Nat) :
    ((initStore s topo acts).1).totalWeights = totalWeightsOf topo ∧
    ((initStore s topo acts).1).totalBiases = totalBiasesOf topo ∧
    ((initStore s topo acts).1).totalNeurons = totalNeuronsOf topo := by
  unfold initStore
  split <;> exact ⟨rfl, rfl, rfl⟩

/-- C1 (amended): for every topology of length ≥ 2 bound by initialize, the
totals sized into the three buffers are the claimed sums reduced modulo 2^32
(the planner accumulates them in uint32_t), and hence equal the exact sums
whenever those sums are below 2^32: total weights = Σ inputSize·outputSize
over adjacent pairs, total biases = Σ outputSize, total activations = Σ of
all topology entries including the output layer. -/
theorem C1_totals (s : Store) (topo acts : List Nat) (_h : 2 ≤ topo.length) :
    ((initStore s topo acts).1).totalWeights =
      ((layerPairs topo).map (fun p => p.1 * p.2)).sum % U32 ∧
    ((initStore s topo acts).1).totalBiases =
      ((layerPairs topo).map (fun p => p.2)).sum % U32 ∧
    ((initStore s topo acts).1).totalNeurons = topo.sum % U32 ∧
    (((layerPairs topo).map (fun p => p.1 * p.2)).sum < U32 →
      ((initStore s topo acts).1).totalWeights =
        ((layerPairs topo).map (fun p => p.1 * p.2)).sum) ∧
    (((layerPairs topo).map (fun p => p.2)).sum < U32 →
      ((initStore s topo acts).1).totalBiases =
        ((layerPairs topo).map (fun p => p.2)).sum) ∧
    (topo.sum < U32 →
      ((initStore s topo acts).1).totalNeurons = topo.sum) := by
  obtain ⟨hW, hB, hN⟩ := initStore_totals s topo acts
  have ht := offsetsGo_totals (layerPairs topo) 0 0 0 U32_pos U32_pos
  have hw : totalWeightsOf topo = ((layerPairs topo).map (fun p => p.1 * p.2)).sum % U32 := by
    unfold totalWeightsOf computeOffsetsResult
    rw [ht.1, Nat.zero_add]
  have hb : totalBiasesOf topo = ((layerPairs topo).map (fun p => p.2)).sum % U32 := by
    unfold totalBiasesOf computeOffsetsResult
    rw [ht.2, Nat.zero_add]
  have hn : totalNeuronsOf topo = topo.sum % U32 := by
    unfold totalNeuronsOf
    rw [foldl_mod_sum topo 0 U32_pos, Nat.zero_add]
  refine ⟨hW.trans hw, hB.trans hb, hN.trans hn, ?_, ?_, ?_⟩
  · intro hlt; rw [hW, hw, Nat.mod_eq_of_lt hlt]
  · intro hlt; rw [hB, hb, Nat.mod_eq_of_lt hlt]
  · intro hlt; rw [hN, hn, Nat.mod_eq_of_lt hlt]

/-- Witness for C1_totals at the XOR topology {2,2,1}. -/
theorem C1_totals_witness :
    2 ≤ ([2, 2, 1] : List Nat).length ∧
    (((initStore defaultStore [2, 2, 1] [0, 0]).1).totalWeights =
        ((layerPairs [2, 2, 1]).map (fun p => p.1 * p.2)).sum % U32 ∧
      ((initStore defaultStore [2, 2, 1] [0, 0]).1).totalBiases =
        ((layerPairs [2, 2, 1]).map (fun p => p.2)).sum % U32 ∧
      ((initStore defaultStore [2, 2, 1] [0, 0]).1).totalNeurons =
        ([2, 2, 1] : List Nat).sum % U32 ∧
      (((layerPairs [2, 2, 1]).map (fun p => p.1 * p.2)).sum < U32 →
        ((initStore defaultStore [2, 2, 1] [0, 0]).1).totalWeights =
          ((layerPairs [2, 2, 1]).map (fun p => p.1 * p.2)).sum) ∧
      (((layerPairs [2, 2, 1]).map (fun p => p.2)).sum < U32 →
        ((initStore defaultStore [2, 2, 1] [0, 0]).1).totalBiases =
          ((layerPairs [2, 2, 1]).map (fun p => p.2)).sum) ∧
      (([2, 2, 1] : List Nat).sum < U32 →
        ((initStore defaultStore [2, 2, 1] [0, 0]).1).totalNeurons =
          ([2, 2, 1] : List Nat).sum)) :=
  ⟨by decide, C1_totals defaultStore [2, 2, 1] [0, 0] (by decide)⟩

/-- Counterexample to C1 as stated: the uint32_t accumulator wraps.  For the
topology {65536, 65536} (length 2) the claimed total weight count is
65536·65536 = 2^32, but the planner stores 0. -/
theorem C1_counterexample :
    ((initStore defaultStore [65536, 65536] [0]).1).totalWeights = 0 ∧
    ((layerPairs [65536, 65536]).map (fun p => p.1 * p.2)).sum = 4294967296 ∧
    ((initStore defaultStore [65536, 65536] [0]).1).totalWeights ≠
      ((layerPairs [65536, 65536]).map (fun p => p.1 * p.2)).sum := by
  refine ⟨?_, ?_, ?_⟩ <;> decide

/-- C2 (amended): in every well-formed store the activation offsets of
descriptor i are the prefix sums of the topology reduced modulo 2^32 (the
offsets are uint32_t): inputOffset i = (Σ topology[0..i)) mod 2^32,
outputOffset i = (inputOffset i + inputSize i) mod 2^32, and the chaining
inputOffset (i+1) = outputOffset i holds exactly. -/
theorem C2_offsets (s : Store) (h : WellFormed s) (i : Nat)
    (hi : i < s.layerInfo.length) :
    (s.layerInfo.getD i default).inputOffset = (s.topology.take i).sum % U32 ∧
    (s.layerInfo.getD i default).outputOffset =
      ((s.layerInfo.getD i default).inputOffset +
        (s.layerInfo.getD i default).inputSize) % U32 ∧
    (i + 1 < s.layerInfo.length →
      (s.layerInfo.getD (i + 1) default).inputOffset =
        (s.layerInfo.getD i default).outputOffset) := by
  obtain ⟨-, hmap, -, -, -, -, -, -⟩ := h
  have hlenmap : s.layerInfo.length = (layerInfosOf s.topology).length := by
    rw [← hmap, List.length_map]
  have hlen2 : (layerInfosOf s.topology).length = (layerPairs s.topology).length := by
    unfold layerInfosOf computeOffsetsResult
    exact offsetsGo_length _ 0 0 0
  have hip : i < (layerPairs s.topology).length := by
    rw [← hlen2, ← hlenmap]; exact hi
  have key : ∀ j, j < s.layerInfo.length →
      stripAct (s.layerInfo.getD j default) = (layerInfosOf s.topology).getD j default := by
    intro j hj
    rw [← getD_map_stripAct s.layerInfo j hj, hmap]
  have e_in : (s.layerInfo.getD i default).inputOffset =
      ((layerInfosOf s.topology).getD i default).inputOffset := by
    rw [← key i hi]; rfl
  have e_out : (s.layerInfo.getD i default).outputOffset =
      ((layerInfosOf s.topology).getD i default).outputOffset := by
    rw [← key i hi]; rfl
  have e_size : (s.layerInfo.getD i default).inputSize =
      ((layerInfosOf s.topology).getD i default).inputSize := by
    rw [← key i hi]; rfl
  have hfields := offsetsGo_getD (layerPairs s.topology) i 0 0 0 hip U32_pos
  refine ⟨?_, ?_, ?_⟩
  · rw [e_in]
    unfold layerInfosOf computeOffsetsResult
    rw [hfields.2.2.1, Nat.zero_add, layerPairs_take_fst s.topology i hip]
  · rw [e_out, e_in, e_size]
    unfold layerInfosOf computeOffsetsResult
    rw [hfields.2.2.2, hfields.2.2.1, hfields.1, Nat.mod_add_mod]
  · intro hi1
    have hip1 : i + 1 < (layerPairs s.topology).length := by
      rw [← hlen2, ← hlenmap]; exact hi1
    have e_in1 : (s.layerInfo.getD (i + 1) default).inputOffset =
        ((layerInfosOf s.topology).getD (i + 1) default).inputOffset := by
      rw [← key (i + 1) hi1]; rfl
    rw [e_in1, e_out]
    unfold layerInfosOf computeOffsetsResult
    exact offsetsGo_chain (layerPairs s.topology) i 0 0 0 hip1

/-- Witness for C2_offsets on the XOR store at descriptor 0. -/
theorem C2_offsets_witness :
    WellFormed xorStore ∧ 0 < xorStore.layerInfo.length ∧
    ((xorStore.layerInfo.getD 0 default).inputOffset =
        (xorStore.topology.take 0).sum % U32 ∧
      (xorStore.layerInfo.getD 0 default).outputOffset =
        ((xorStore.layerInfo.getD 0 default).inputOffset +
          (xorStore.layerInfo.getD 0 default).inputSize) % U32 ∧
      (0 + 1 < xorStore.layerInfo.length →
        (xorStore.layerInfo.getD (0 + 1) default).inputOffset =
          (xorStore.layerInfo.getD 0 default).outputOffset)) :=
  ⟨by decide, by decide, C2_offsets xorStore (by decide) 0 (by decide)⟩

/-- Counterexample to C2 as stated: with uint32_t offsets the relation
outputOffset = inputOffset + inputSize wraps.  In the store initialized with
topology {4294967295, 2, 1}, descriptor 1 has inputOffset 4294967295 and
inputSize 2 but outputOffset 1, not 4294967297. -/
theorem C2_counterexample :
    (((initStore defaultStore [4294967295, 2, 1] [0, 0]).1.layerInfo.getD 1
        default).outputOffset = 1) ∧
    (((initStore defaultStore [4294967295, 2, 1] [0, 0]).1.layerInfo.getD 1
          default).inputOffset +
        ((initStore defaultStore [4294967295, 2, 1] [0, 0]).1.layerInfo.getD 1
          default).inputSize = 4294967297) ∧
    (((initStore defaultStore [4294967295, 2, 1] [0, 0]).1.layerInfo.getD 1
        default).outputOffset ≠
      ((initStore defaultStore [4294967295, 2, 1] [0, 0]).1.layerInfo.getD 1
          default).inputOffset +
        ((initStore defaultStore [4294967295, 2, 1] [0, 0]).1.layerInfo.getD 1
          default).inputSize) := by
  refine ⟨?_, ?_, ?_⟩ <;> decide

unseal Rat.add Rat.mul Rat.inv in
/-- C3: evaluation of the XOR scenario under the spec's kernel contract with
the weights and biases hard-coded in main.cpp.  Three of the four expected
outputs hold, but input (1,1) produces 1.0, not the 0.0 the claim (and
main.cpp's own test label "(1,1) -> 0") expects: the hidden layer computes
(relu(1+1+0), relu(1+1-1.5)) = (2, 1/2) and the output layer
relu(1·2 + (-2)·(1/2) + 0) = 1. -/
theorem C3_xor_outputs :
    runXor 0 0 = some [0] ∧ runXor 0 1 = some [1] ∧
    runXor 1 0 = some [1] ∧ runXor 1 1 = some [1] := by
  refine ⟨?_, ?_, ?_, ?_⟩ <;> decide

/-- Counterexample to C4 as stated: initialize performs no topology-length
check, and the activation-arity check happens only after the store's fields
have been overwritten.  First conjunct: a length-1 topology with an empty
activation list is accepted (no ConfigurationError).  Remaining conjuncts: a
failed call on a previously initialized store leaves the new topology in
place, not the old one. -/
theorem C4_counterexample :
    (initStore defaultStore [5] []).2 = none ∧
    ((initStore (initStore defaultStore [2, 2, 1] [0, 0]).1 [9, 9, 9] [0]).2 =
      some NNError.configurationError) ∧
    ((initStore (initStore defaultStore [2, 2, 1] [0, 0]).1 [9, 9, 9] [0]).1.topology ≠
      (initStore defaultStore [2, 2, 1] [0, 0]).1.topology) := by
  refine ⟨?_, ?_, ?_⟩ <;> decide

/-- C4 (amended): initialize checks only the activation arity
(activationKinds.length = topology.length − 1); there is no topology.length
≥ 2 check, so a one-layer topology with an empty activation list succeeds
with zero layer descriptors.  On an arity mismatch it fails with a
ConfigurationError before creating buffers — the previous buffers are
released and none are allocated — but the stored topology, layer descriptors
and totals have already been overwritten from the failed call's arguments. -/
theorem C4_amended :
    (∀ (s : Store) (topo acts : List Nat), topo ≠ [] →
      acts.length + 1 ≠ topo.length →
      initStore s topo acts =
        ({ topology := topo, layerInfo := layerInfosOf topo,
           totalWeights := totalWeightsOf topo, totalBiases := totalBiasesOf topo,
           totalNeurons := totalNeuronsOf topo, weights := [], biases := [],
           activations := [], buffersCreated := false },
         some NNError.configurationError)) ∧
    (∀ (s : Store) (n : Nat), (initStore s [n] []).2 = none) := by
  constructor
  · intro s topo acts _ hmis
    simp [initStore, hmis]
  · intro s n
    simp [initStore]

/-- Witness for C4_amended: a concrete arity-mismatched call. -/
theorem C4_amended_witness :
    ([2, 2, 1] : List Nat) ≠ [] ∧
    ([0] : List Nat).length + 1 ≠ ([2, 2, 1] : List Nat).length ∧
    initStore defaultStore [2, 2, 1] [0] =
      ({ topology := [2, 2, 1], layerInfo := layerInfosOf [2, 2, 1],
         totalWeights := totalWeightsOf [2, 2, 1],
         totalBiases := totalBiasesOf [2, 2, 1],
         totalNeurons := totalNeuronsOf [2, 2, 1], weights := [], biases := [],
         activations := [], buffersCreated := false },
       some NNError.configurationError) :=
  ⟨by decide, by decide, C4_amended.1 defaultStore [2, 2, 1] [0] (by decide) (by decide)⟩

/-- C5: for an initialized dispatcher, forward() equals calling
forwardLayer(i) for i = 0..layerCount−1 in ascending order — the same store
result (hence the same final buffer contents), the same device-command
sequence, and no error; and every successful single-layer call's device work
ends with a memory barrier. -/
theorem C5_forward_equiv (act : Nat → Rat → Rat) (c : Compute) (s : Store)
    (hb : c.bound = true) (hp : c.programLoaded = true) :
    forward act c s =
      ((forwardLayerCalls act c s (List.range (getLayerCount c s))).1, none,
        (forwardLayerCalls act c s (List.range (getLayerCount c s))).2) ∧
    (∀ (s' : Store) (i : Nat), i < s'.layerInfo.length →
      ((forwardLayer act c s' i).2.2).getLast? = some DeviceCmd.barrier) := by
  constructor
  · simp [forward, forwardLayerCalls, getLayerCount, hb, hp]
  · intro s' i hi
    have h2 : ¬ s'.layerInfo.length ≤ i := Nat.not_le.mpr hi
    simp [forwardLayer, hb, hp, h2]

/-- Witness for C5_forward_equiv on the XOR store. -/
theorem C5_forward_equiv_witness :
    compInit.bound = true ∧ compInit.programLoaded = true ∧
    (forward demoActivation compInit xorStore =
      ((forwardLayerCalls demoActivation compInit xorStore
          (List.range (getLayerCount compInit xorStore))).1, none,
        (forwardLayerCalls demoActivation compInit xorStore
          (List.range (getLayerCount compInit xorStore))).2) ∧
      (∀ (s' : Store) (i : Nat), i < s'.layerInfo.length →
        ((forwardLayer demoActivation compInit s' i).2.2).getLast? =
          some DeviceCmd.barrier)) :=
  ⟨rfl, rfl, C5_forward_equiv demoActivation compInit xorStore rfl rfl⟩

/-- C6: uploadWeights/uploadBiases reject any vector whose length differs
from the stored total, reporting a size mismatch and leaving the store (and
so the buffer contents) unchanged; with the exact length they replace the
entire corresponding buffer (the uploaded vector is as long as the buffer). -/
theorem C6_upload_guards (s : Store) (W B : List Rat)
    (hw : s.weights.length = s.totalWeights)
    (hb : s.biases.length = s.totalBiases) :
    (W.length ≠ s.totalWeights →
      uploadWeights s W = (s, some NNError.sizeMismatchError)) ∧
    (W.length = s.totalWeights →
      uploadWeights s W = ({ s with weights := W }, none) ∧
        W.length = s.weights.length) ∧
    (B.length ≠ s.totalBiases →
      uploadBiases s B = (s, some NNError.sizeMismatchError)) ∧
    (B.length = s.totalBiases →
      uploadBiases s B = ({ s with biases := B }, none) ∧
        B.length = s.biases.length) := by
  refine ⟨fun h => ?_, fun h => ⟨?_, ?_⟩, fun h => ?_, fun h => ⟨?_, ?_⟩⟩
  · simp [uploadWeights, h]
  · simp [uploadWeights, h]
  · exact h.trans hw.symm
  · simp [uploadBiases, h]
  · simp [uploadBiases, h]
  · exact h.trans hb.symm

/-- Witness for C6_upload_guards: a one-element vector against the XOR store
(whose totals are 6 weights and 3 biases). -/
theorem C6_upload_guards_witness :
    xorStore.weights.length = xorStore.totalWeights ∧
    xorStore.biases.length = xorStore.totalBiases ∧
    ((([0] : List Rat).length ≠ xorStore.totalWeights →
        uploadWeights xorStore [0] = (xorStore, some NNError.sizeMismatchError)) ∧
      (([0] : List Rat).length = xorStore.totalWeights →
        uploadWeights xorStore [0] = ({ xorStore with weights := [0] }, none) ∧
          ([0] : List Rat).length = xorStore.weights.length) ∧
      (([0] : List Rat).length ≠ xorStore.totalBiases →
        uploadBiases xorStore [0] = (xorStore, some NNError.sizeMismatchError)) ∧
      (([0] : List Rat).length = xorStore.totalBiases →
        uploadBiases xorStore [0] = ({ xorStore with biases := [0] }, none) ∧
          ([0] : List Rat).length = xorStore.biases.length)) :=
  ⟨by decide, by decide, C6_upload_guards xorStore [0] [0] (by decide) (by decide)⟩

/-- C7: on a well-formed store, setInputs with exactly topology[0] values
overwrites the first topology[0] activation elements with the given vector
and leaves every element at index ≥ topology[0] (and every other store
field) unchanged; any other length yields a size mismatch with no write. -/
theorem C7_setInputs_frame (s : Store) (v : List Rat) (h : WellFormed s) :
    ∃ t0, s.topology.head? = some t0 ∧
      (v.length ≠ t0 → setInputs s v = some (s, some NNError.sizeMismatchError)) ∧
      (v.length = t0 →
        setInputs s v =
          some ({ s with activations := v ++ s.activations.drop t0 }, none) ∧
        (v ++ s.activations.drop t0).take t0 = v ∧
        (∀ j, t0 ≤ j →
          (v ++ s.activations.drop t0).getD j 0 = s.activations.getD j 0)) := by
  obtain ⟨htopo, -, -, -, -, -, -, -⟩ := h
  obtain ⟨t0, rest, htop⟩ : ∃ t0 rest, s.topology = t0 :: rest := by
    cases hcase : s.topology with
    | nil => rw [hcase] at htopo; simp at htopo
    | cons a l => exact ⟨a, l, rfl⟩
  refine ⟨t0, by rw [htop]; rfl, fun hne => ?_, fun heq => ⟨?_, ?_, ?_⟩⟩
  · simp [setInputs, htop, hne]
  · simp [setInputs, htop, heq]
  · rw [← heq]
    exact List.take_left v _
  · intro j hj
    rw [← heq] at hj
    rw [← heq, List.getD_eq_getElem?_getD, List.getD_eq_getElem?_getD,
      List.getElem?_append_right hj, List.getElem?_drop]
    have hsum : v.length + (j - v.length) = j := by omega
    rw [hsum]

/-- Witness for C7_setInputs_frame: the XOR store and the input (5, 7). -/
theorem C7_setInputs_frame_witness :
    WellFormed xorStore ∧
    (∃ t0, xorStore.topology.head? = some t0 ∧
      (([5, 7] : List Rat).length ≠ t0 →
        setInputs xorStore [5, 7] = some (xorStore, some NNError.sizeMismatchError)) ∧
      (([5, 7] : List Rat).length = t0 →
        setInputs xorStore [5, 7] =
          some ({ xorStore with
                    activations := [5, 7] ++ xorStore.activations.drop t0 }, none) ∧
        (([5, 7] : List Rat) ++ xorStore.activations.drop t0).take t0 = [5, 7] ∧
        (∀ j, t0 ≤ j →
          (([5, 7] : List Rat) ++ xorStore.activations.drop t0).getD j 0 =
            xorStore.activations.getD j 0))) :=
  ⟨by decide, C7_setInputs_frame xorStore [5, 7] (by decide)⟩

/-- C8: for an initialized dispatcher, forwardLayer with an index at or past
the layer count fails with the index-out-of-range error, issues no device
command at all, and returns the store unchanged. -/
theorem C8_forwardLayer_oob (act : Nat → Rat → Rat) (c : Compute) (s : Store)
    (idx : Nat) (hb : c.bound = true) (hp : c.programLoaded = true)
    (h : getLayerCount c s ≤ idx) :
    forwardLayer act c s idx = (s, some NNError.indexOutOfRangeError, []) := by
  have h' : s.layerInfo.length ≤ idx := by
    simpa [getLayerCount, hb] using h
  simp [forwardLayer, hb, hp, h']

/-- Witness for C8_forwardLayer_oob: index 2 on the two-layer XOR store. -/
theorem C8_forwardLayer_oob_witness :
    compInit.bound = true ∧ compInit.programLoaded = true ∧
    getLayerCount compInit xorStore ≤ 2 ∧
    forwardLayer demoActivation compInit xorStore 2 =
      (xorStore, some NNError.indexOutOfRangeError, []) :=
  ⟨rfl, rfl, by decide,
    C8_forwardLayer_oob demoActivation compInit xorStore 2 rfl rfl (by decide)⟩

/-- C9: uploading a correctly sized vector and reading back returns the same
vector, for weights, biases (read modelled from the spec) and the full
activation buffer. -/
theorem C9_roundtrip (s : Store) (W B A : List Rat)
    (hw : W.length = s.totalWeights) (hb : B.length = s.totalBiases)
    (ha : A.length = s.totalNeurons) :
    readWeights (uploadWeights s W).1 = W ∧
    readBiases (uploadBiases s B).1 = B ∧
    readAllActivations (uploadActivations s A).1 = A := by
  refine ⟨?_, ?_, ?_⟩
  · have h1 : uploadWeights s W = ({ s with weights := W }, none) := by
      simp [uploadWeights, hw]
    rw [h1]
    unfold readWeights
    rw [show ({ s with weights := W } : Store).totalWeights = s.totalWeights from rfl,
      ← hw]
    exact List.take_length W
  · have h1 : uploadBiases s B = ({ s with biases := B }, none) := by
      simp [uploadBiases, hb]
    rw [h1]
    unfold readBiases
    rw [show ({ s with biases := B } : Store).totalBiases = s.totalBiases from rfl,
      ← hb]
    exact List.take_length B
  · have h1 : uploadActivations s A = ({ s with activations := A }, none) := by
      simp [uploadActivations, ha]
    rw [h1]
    unfold readAllActivations
    rw [show ({ s with activations := A } : Store).totalNeurons = s.totalNeurons from rfl,
      ← ha]
    exact List.take_length A

/-- Witness for C9_roundtrip on the XOR store with fresh constant vectors. -/
theorem C9_roundtrip_witness :
    ([2, 2, 2, 2, 2, 2] : List Rat).length = xorStore.totalWeights ∧
    ([3, 3, 3] : List Rat).length = xorStore.totalBiases ∧
    ([4, 4, 4, 4, 4] : List Rat).length = xorStore.totalNeurons ∧
    (readWeights (uploadWeights xorStore [2, 2, 2, 2, 2, 2]).1 = [2, 2, 2, 2, 2, 2] ∧
      readBiases (uploadBiases xorStore [3, 3, 3]).1 = [3, 3, 3] ∧
      readAllActivations (uploadActivations xorStore [4, 4, 4, 4, 4]).1 =
        [4, 4, 4, 4, 4]) :=
  ⟨by decide, by decide, by decide,
    C9_roundtrip xorStore [2, 2, 2, 2, 2, 2] [3, 3, 3] [4, 4, 4, 4, 4]
      (by decide) (by decide) (by decide)⟩

/-- C10: setInputs reads m_topology[0] before any other check, so the access
is in bounds exactly when the stored topology is non-empty.  A
default-constructed store has an empty topology (the access is out of
bounds), initialize installs its topology argument unconditionally, and no
other store operation ever changes the topology — so the access is in bounds
precisely when an initialize with a non-empty topology has happened (and no
later initialize emptied it, which initialize on a non-empty argument never
does). -/
theorem C10_inputs_bounds :
    (∀ (s : Store) (v : List Rat), (setInputs s v).isSome ↔ s.topology ≠ []) ∧
    (∀ v : List Rat, setInputs defaultStore v = none) ∧
    (∀ (s : Store) (topo acts : List Nat), topo ≠ [] →
      ((initStore s topo acts).1).topology = topo) ∧
    (∀ (s : Store) (v : List Rat), ((uploadWeights s v).1).topology = s.topology) ∧
    (∀ (s : Store) (v : List Rat), ((uploadBiases s v).1).topology = s.topology) ∧
    (∀ (s : Store) (v : List Rat),
      ((uploadActivations s v).1).topology = s.topology) ∧
    (∀ s : Store, (clearActivations s).topology = s.topology) ∧
    (∀ (s : Store) (v : List Rat) (r : Store × Option NNError),
      setInputs s v = some r → r.1.topology = s.topology) := by
  refine ⟨?_, ?_, ?_, ?_, ?_, ?_, ?_, ?_⟩
  · intro s v
    cases htop : s.topology with
    | nil => simp [setInputs, htop]
    | cons a l =>
      unfold setInputs
      rw [htop]
      by_cases hv : v.length ≠ a <;> simp [hv]
  · intro v; rfl
  · intro s topo acts _
    unfold initStore
    split <;> rfl
  · intro s v
    unfold uploadWeights
    split <;> rfl
  · intro s v
    unfold uploadBiases
    split <;> rfl
  · intro s v
    unfold uploadActivations
    split <;> rfl
  · intro s; rfl
  · intro s v r hr
    unfold setInputs at hr
    cases htop : s.topology with
    | nil => rw [htop] at hr; simp at hr
    | cons a l =>
      rw [htop] at hr
      simp only [List.head?_cons] at hr
      by_cases hv : v.length ≠ a
      · rw [if_pos hv] at hr
        injection hr with h2
        rw [← h2]
        exact htop
      · rw [if_neg hv] at hr
        injection hr with h2
        rw [← h2]

/-- Witness for C10_inputs_bounds: initialize with the one-entry topology
[2] makes the stored topology non-empty. -/
theorem C10_inputs_bounds_witness :
    ([2] : List Nat) ≠ [] ∧ ((initStore defaultStore [2] []).1).topology = [2] :=
  ⟨by decide, C10_inputs_bounds.2.2.1 defaultStore [2] [] (by decide)⟩
